import Mathlib

/-!
# DTLS handshake orchestration: `DtlsHandshake.cpp`

A shallow embedding of `SIPSorceryMedia::DtlsHandshake`.

* Pointers are `Option` values over object identifiers: `none` is `nullptr`.
* The collaborating OpenSSL calls are not reimplemented.  What each call
  returns during one run of a method is given by an `Outcomes` record, and
  every call the method makes is appended to a trace of `Call` events, in
  program order (the `printf` diagnostics included).
* Reading a field through a null pointer, and a `memcpy_s` whose count exceeds
  the destination size, end the run with a `Fault` instead of a result.
* The macros of `DtlsHandshake.h` (not part of the sources at hand) are the
  fields of `Header`; nothing is assumed about their values unless a theorem
  says so.
-/

namespace SIPSorceryMedia

/-! ## Data model -/

/-- One octet, kept as a natural number. -/
abbrev Byte := Nat

/-- Identifier of a live `SSL_CTX` object. -/
abbrev SSL_CTX := Nat

/-- Identifier of a live `SSL` object. -/
abbrev SSL := Nat

/-- Identifier of a live datagram `BIO` object. -/
abbrev DgramBio := Nat

/-- Identifier of a live `X509` certificate object. -/
abbrev X509 := Nat

/-- Identifier of a digest algorithm descriptor (`const EVP_MD*`). -/
abbrev EVP_MD := Nat

/-- Ways in which a run ends without returning to the caller. -/
inductive Fault where
  | nullDereference
  | invalidParameter
deriving DecidableEq, Repr

/-- The native `krx` record: the three library objects of a session. -/
structure krx where
  ctx : Option SSL_CTX
  ssl : Option SSL
  bio : Option DgramBio
deriving DecidableEq, Repr

/-- The `DtlsHandshake` object: the native record pointer `_k`, the two
identity file paths and the `Debug` switch. -/
structure DtlsHandshake where
  _k : Option krx
  _certFile : String
  _keyFile : String
  Debug : Bool
deriving DecidableEq, Repr

/-- Macros of the header `DtlsHandshake.h`, taken as parameters.
`DTLS_COOKIE` is the byte content of the object, so that `sizeof` is the
length of the list. -/
structure Header where
  HANDSHAKE_ERROR_STATUS : Int
  SRTP_ALGORITHM : String
  DTLS_COOKIE : List Byte

/-- The two protocol methods handed to `SSL_CTX_new`. -/
inductive Method where
  | DTLS_server_method
  | DTLS_client_method
deriving DecidableEq, Repr

/-- The socket address prepared by the client path (`sockaddr_in` or
`sockaddr_in6`): family tag, address field and port in network order. -/
structure sockaddr where
  family : Int
  addr : List Byte
  port : Nat
deriving DecidableEq, Repr

/-- `AF_INET` of the socket headers. -/
def AF_INET : Int := 2

/-- `AF_INET6` of the Winsock headers. -/
def AF_INET6 : Int := 23

/-- `sizeof(in_addr)`. -/
def sizeof_in_addr : Nat := 4

/-- `sizeof(in6_addr)`. -/
def sizeof_in6_addr : Nat := 16

/-- `EVP_MAX_MD_SIZE`: size of the local digest buffer `fp`. -/
def EVP_MAX_MD_SIZE : Nat := 64

/-- `SSL_FILETYPE_PEM`. -/
def SSL_FILETYPE_PEM : Int := 1

/-- `SSL_VERIFY_PEER`. -/
def SSL_VERIFY_PEER : Int := 1

/-- `BIO_NOCLOSE`. -/
def BIO_NOCLOSE : Int := 0

/-- `BIO_CTRL_DGRAM_SET_CONNECTED`. -/
def BIO_CTRL_DGRAM_SET_CONNECTED : Int := 32

/-- `TLS_ST_OK` of `OSSL_HANDSHAKE_STATE`. -/
def TLS_ST_OK : Nat := 1

/-- The calls a method makes, in the order it makes them. -/
inductive Call where
  | InitialiseOpenSSL
  | ERR_print_errors_fp
  | printf (msg : String)
  | SSL_CTX_new (method : Method)
  | SSL_CTX_set_cipher_list (ctx : SSL_CTX) (str : String)
  | SSL_CTX_set_tlsext_use_srtp (ctx : SSL_CTX) (profiles : String)
  | SSL_CTX_use_certificate_file (ctx : SSL_CTX) (file : String) (type : Int)
  | SSL_CTX_use_PrivateKey_file (ctx : SSL_CTX) (file : String) (type : Int)
  | SSL_CTX_check_private_key (ctx : SSL_CTX)
  | SSL_CTX_set_ecdh_auto (ctx : SSL_CTX) (onoff : Int)
  | SSL_CTX_set_verify (ctx : SSL_CTX) (mode : Int)
  | SSL_new (ctx : SSL_CTX)
  | BIO_new_dgram (fd : Int) (closeFlag : Int)
  | SSL_set_bio (ssl : SSL) (rbio : DgramBio) (wbio : DgramBio)
  | SSL_set_info_callback (ssl : SSL)
  | SSL_set_accept_state (ssl : SSL)
  | SSL_set_connect_state (ssl : SSL)
  | BIO_ctrl (bio : DgramBio) (cmd : Int) (larg : Int) (parg : sockaddr)
  | SSL_accept (ssl : SSL)
  | SSL_connect (ssl : SSL)
  | SSL_get_peer_certificate (ssl : SSL)
  | EVP_get_digestbyname (name : String)
  | X509_digest (cert : X509) (type : Option EVP_MD)
  | X509_free (cert : X509)
  | SSL_CTX_free (ctx : SSL_CTX)
  | SSL_shutdown (ssl : SSL)
  | SSL_free (ssl : SSL)
deriving DecidableEq, Repr

/-- What `X509_digest` leaves behind: its return value, the content of the
caller's buffer `fp` and the value stored in `length`. -/
structure DigestResult where
  ret : Int
  fp : List Byte
  length : Nat

/-- What the library calls of one run return. -/
structure Outcomes where
  SSL_CTX_new : Option SSL_CTX
  SSL_CTX_set_cipher_list : Int
  SSL_CTX_set_tlsext_use_srtp : Int
  SSL_CTX_use_certificate_file : Int
  SSL_CTX_use_PrivateKey_file : Int
  SSL_CTX_check_private_key : Int
  SSL_new : Option SSL
  BIO_new_dgram : Option DgramBio
  BIO_ctrl : Int
  SSL_accept : Int
  SSL_connect : Int
  SSL_get_peer_certificate : Option X509
  EVP_get_digestbyname : String → Option EVP_MD
  X509_digest : X509 → Option EVP_MD → DigestResult

/-- What a handshake method hands back: the returned status, the caller's
`fingerprint` handle after the call, the object after the call and the calls
made. -/
structure Result where
  ret : Int
  fingerprint : Option (List Byte)
  self : DtlsHandshake
  trace : List Call

/-! ## Helpers of the embedding -/

/-- The cast `(int)rtpSocket` of an unsigned socket handle. -/
def toInt32 (n : Nat) : Int :=
  (((n % 2 ^ 32 + 2 ^ 31) % 2 ^ 32 : Nat) : Int) - 2 ^ 31

/-- `htons` on a little-endian host. -/
def htons (p : Nat) : Nat :=
  (p % 256) * 256 + (p / 256) % 256

/-- `memcpy_s(dest, destsz, src, count)` of the Microsoft runtime, with the
source given as the memory content at the source address.  A zero count
returns at once.  A count above the destination size is a constraint
violation: the runtime invokes its invalid-parameter handler, which by default
terminates the process, so the run does not return to its caller. -/
def memcpy_s (dest : List Byte) (destsz : Nat) (src : Nat → Byte) (count : Nat) :
    Except Fault (List Byte) :=
  if count = 0 then Except.ok dest
  else if destsz < count then Except.error Fault.invalidParameter
  else Except.ok ((List.range count).map src ++ dest.drop count)

/-- `Marshal::Copy(fp, fingerprint, 0, length)` into a fresh array of `length`
elements: the first `length` bytes of the buffer `fp`. -/
def marshalCopy (fp : List Byte) (length : Nat) : List Byte :=
  fp.take length

/-! ## The callbacks -/

/-- `krx_ssl_verify_peer`, the callback handed to `SSL_CTX_set_verify`: any
peer certificate is accepted. -/
def krx_ssl_verify_peer (_ok : Int) (_ctx : Nat) : Int := 1

/-- `verify_cookie`: any cookie is accepted. -/
def verify_cookie (_ssl : Option SSL) (_cookie : List Byte) (_cookie_len : Nat) : Int := 1

/-- `generate_cookie`: returns the status, the cookie buffer after the
`memcpy` and the value stored in `*cookie_len`. -/
def generate_cookie (H : Header) (_ssl : Option SSL) (cookie : List Byte) :
    Int × List Byte × Nat :=
  let cookieLength := H.DTLS_COOKIE.length
  (1, H.DTLS_COOKIE ++ cookie.drop cookieLength, cookieLength)

/-! ## The object -/

/-- The constructor `DtlsHandshake::DtlsHandshake(certFile, keyFile)`, which
runs the default constructor first.  `debug` is the value of the `Debug`
property; the second component lists the calls made. -/
def DtlsHandshake.new (_isOpenSSLInitialised : Bool) (certFile keyFile : String)
    (debug : Bool) : DtlsHandshake × List Call :=
  (⟨some ⟨none, none, none⟩, certFile, keyFile, debug⟩,
    if _isOpenSSLInitialised then [] else [Call.InitialiseOpenSSL])

/-! ## The two handshake methods -/

/-- The method `DtlsHandshake::DoHandshakeAsServer(rtpSocket, fingerprint)`.
The argument `fingerprint` is the caller's handle before the call. -/
def DoHandshakeAsServer (H : Header) (o : Outcomes) (self : DtlsHandshake) (rtpSocket : Nat)
    (fingerprint : Option (List Byte)) : Except Fault Result :=
  let t := [Call.ERR_print_errors_fp]
  match self._k with
  | none => Except.error Fault.nullDereference
  | some k =>
    let t := t ++ [Call.SSL_CTX_new Method.DTLS_server_method]
    let k := { k with ctx := o.SSL_CTX_new }
    match o.SSL_CTX_new with
    | none =>
      Except.ok ⟨H.HANDSHAKE_ERROR_STATUS, fingerprint, { self with _k := some k },
        t ++ [Call.printf "Error: cannot create SSL_CTX.\n", Call.ERR_print_errors_fp]⟩
    | some ctx =>
      let t := t ++ [Call.SSL_CTX_set_cipher_list ctx "ALL:!ADH:!LOW:!EXP:!MD5:@STRENGTH"]
      if o.SSL_CTX_set_cipher_list ≠ 1 then
        Except.ok ⟨H.HANDSHAKE_ERROR_STATUS, fingerprint, { self with _k := some k },
          t ++ [Call.printf "Error: cannot set the cipher list.\n", Call.ERR_print_errors_fp]⟩
      else
      let t := t ++ [Call.SSL_CTX_set_tlsext_use_srtp ctx H.SRTP_ALGORITHM]
      if o.SSL_CTX_set_tlsext_use_srtp ≠ 0 then
        Except.ok ⟨H.HANDSHAKE_ERROR_STATUS, fingerprint, { self with _k := some k },
          t ++ [Call.printf "Error: cannot setup srtp.\n", Call.ERR_print_errors_fp]⟩
      else
      let t := t ++ [Call.SSL_CTX_use_certificate_file ctx self._certFile SSL_FILETYPE_PEM]
      if o.SSL_CTX_use_certificate_file ≠ 1 then
        Except.ok ⟨H.HANDSHAKE_ERROR_STATUS, fingerprint, { self with _k := some k },
          t ++ [Call.printf "Error: cannot load certificate file.\n", Call.ERR_print_errors_fp]⟩
      else
      let t := t ++ [Call.SSL_CTX_use_PrivateKey_file ctx self._keyFile SSL_FILETYPE_PEM]
      if o.SSL_CTX_use_PrivateKey_file ≠ 1 then
        Except.ok ⟨H.HANDSHAKE_ERROR_STATUS, fingerprint, { self with _k := some k },
          t ++ [Call.printf "Error: cannot load private key file.\n", Call.ERR_print_errors_fp]⟩
      else
      let t := t ++ [Call.SSL_CTX_check_private_key ctx]
      if o.SSL_CTX_check_private_key ≠ 1 then
        Except.ok ⟨H.HANDSHAKE_ERROR_STATUS, fingerprint, { self with _k := some k },
          t ++ [Call.printf "Error: checking the private key failed. \n", Call.ERR_print_errors_fp]⟩
      else
      let t := t ++ [Call.SSL_CTX_set_ecdh_auto ctx 1, Call.SSL_CTX_set_verify ctx SSL_VERIFY_PEER,
        Call.SSL_new ctx]
      let k := { k with ssl := o.SSL_new }
      match o.SSL_new with
      | none =>
        Except.ok ⟨H.HANDSHAKE_ERROR_STATUS, fingerprint, { self with _k := some k },
          t ++ [Call.printf "Error: cannot create new SSL*.\n"]⟩
      | some ssl =>
        let t := t ++ [Call.BIO_new_dgram (toInt32 rtpSocket) BIO_NOCLOSE]
        let k := { k with bio := o.BIO_new_dgram }
        match o.BIO_new_dgram with
        | none =>
          Except.ok ⟨H.HANDSHAKE_ERROR_STATUS, fingerprint, { self with _k := some k },
            t ++ [Call.printf "Error: cannot create new BIO*.\n"]⟩
        | some bio =>
          let t := t ++ [Call.SSL_set_bio ssl bio bio]
          let t := if self.Debug then t ++ [Call.SSL_set_info_callback ssl] else t
          let t := t ++ [Call.SSL_set_accept_state ssl, Call.SSL_accept ssl]
          if o.SSL_accept ≤ 0 then
            Except.ok ⟨H.HANDSHAKE_ERROR_STATUS, fingerprint, { self with _k := some k },
              t ++ [Call.printf "Failed to complete SSL handshake.\n"]⟩
          else
          let t := t ++ [Call.printf "DTLS server handshake completed.\n",
            Call.SSL_get_peer_certificate ssl]
          match o.SSL_get_peer_certificate with
          | some peerCert =>
            let digest := o.EVP_get_digestbyname "sha256"
            let d := o.X509_digest peerCert digest
            let t := t ++ [Call.EVP_get_digestbyname "sha256", Call.X509_digest peerCert digest]
            if d.ret = 1 then
              Except.ok ⟨0, some (marshalCopy d.fp d.length), { self with _k := some k },
                t ++ [Call.X509_free peerCert, Call.ERR_print_errors_fp]⟩
            else
              Except.ok ⟨0, fingerprint, { self with _k := some k },
                t ++ [Call.printf "Failed to get fingerprint for peer certificate.\n",
                  Call.X509_free peerCert, Call.ERR_print_errors_fp]⟩
          | none =>
            Except.ok ⟨0, fingerprint, { self with _k := some k }, t ++ [Call.ERR_print_errors_fp]⟩

/-- The address block at the head of `DoHandshakeAsClient`: fills `svrAddr6`
or `svrAddr4` and yields `pSvrAddr`.  Both `memcpy_s` calls read
`addrBytes->Length` bytes starting at `&addrBytes`; `src` is the memory found
there. -/
def prepareSvrAddr (src : Nat → Byte) (svrAddrFamily : Int) (addrBytes : List Byte)
    (svrPort : Nat) : Except Fault sockaddr :=
  if svrAddrFamily = AF_INET6 then
    match memcpy_s (List.replicate sizeof_in6_addr 0) sizeof_in6_addr src addrBytes.length with
    | Except.error e => Except.error e
    | Except.ok a => Except.ok ⟨AF_INET6, a, htons svrPort⟩
  else
    match memcpy_s (List.replicate sizeof_in_addr 0) sizeof_in_addr src addrBytes.length with
    | Except.error e => Except.error e
    | Except.ok a => Except.ok ⟨AF_INET, a, htons svrPort⟩

/-- The method `DtlsHandshake::DoHandshakeAsClient(rtpSocket, svrAddrFamily,
addrBytes, svrPort, fingerprint)`. -/
def DoHandshakeAsClient (H : Header) (o : Outcomes) (src : Nat → Byte) (self : DtlsHandshake)
    (rtpSocket : Nat) (svrAddrFamily : Int) (addrBytes : List Byte) (svrPort : Nat)
    (fingerprint : Option (List Byte)) : Except Fault Result :=
  let t := [Call.ERR_print_errors_fp]
  match prepareSvrAddr src svrAddrFamily addrBytes svrPort with
  | Except.error e => Except.error e
  | Except.ok pSvrAddr =>
    match self._k with
    | none => Except.error Fault.nullDereference
    | some k =>
      let t := t ++ [Call.SSL_CTX_new Method.DTLS_client_method]
      let k := { k with ctx := o.SSL_CTX_new }
      match o.SSL_CTX_new with
      | none =>
        Except.ok ⟨H.HANDSHAKE_ERROR_STATUS, fingerprint, { self with _k := some k },
          t ++ [Call.printf "Error: cannot create SSL_CTX.\n", Call.ERR_print_errors_fp]⟩
      | some ctx =>
        let t := t ++ [Call.SSL_CTX_set_cipher_list ctx "ALL:!ADH:!LOW:!EXP:!MD5:@STRENGTH"]
        if o.SSL_CTX_set_cipher_list ≠ 1 then
          Except.ok ⟨H.HANDSHAKE_ERROR_STATUS, fingerprint, { self with _k := some k },
            t ++ [Call.printf "Error: cannot set the cipher list.\n", Call.ERR_print_errors_fp]⟩
        else
        let t := t ++ [Call.SSL_CTX_set_tlsext_use_srtp ctx H.SRTP_ALGORITHM]
        if o.SSL_CTX_set_tlsext_use_srtp ≠ 0 then
          Except.ok ⟨H.HANDSHAKE_ERROR_STATUS, fingerprint, { self with _k := some k },
            t ++ [Call.printf "Error: cannot setup srtp.\n", Call.ERR_print_errors_fp]⟩
        else
        let t := t ++ [Call.SSL_CTX_use_certificate_file ctx self._certFile SSL_FILETYPE_PEM]
        if o.SSL_CTX_use_certificate_file ≠ 1 then
          Except.ok ⟨H.HANDSHAKE_ERROR_STATUS, fingerprint, { self with _k := some k },
            t ++ [Call.printf "Error: cannot load certificate file.\n", Call.ERR_print_errors_fp]⟩
        else
        let t := t ++ [Call.SSL_CTX_use_PrivateKey_file ctx self._keyFile SSL_FILETYPE_PEM]
        if o.SSL_CTX_use_PrivateKey_file ≠ 1 then
          Except.ok ⟨H.HANDSHAKE_ERROR_STATUS, fingerprint, { self with _k := some k },
            t ++ [Call.printf "Error: cannot load private key file.\n", Call.ERR_print_errors_fp]⟩
        else
        let t := t ++ [Call.SSL_CTX_check_private_key ctx]
        if o.SSL_CTX_check_private_key ≠ 1 then
          Except.ok ⟨H.HANDSHAKE_ERROR_STATUS, fingerprint, { self with _k := some k },
            t ++ [Call.printf "Error: checking the private key failed. \n", Call.ERR_print_errors_fp]⟩
        else
        let t := t ++ [Call.SSL_CTX_set_ecdh_auto ctx 1, Call.SSL_CTX_set_verify ctx SSL_VERIFY_PEER,
          Call.SSL_new ctx]
        let k := { k with ssl := o.SSL_new }
        match o.SSL_new with
        | none =>
          Except.ok ⟨H.HANDSHAKE_ERROR_STATUS, fingerprint, { self with _k := some k },
            t ++ [Call.printf "Error: cannot create new SSL*.\n"]⟩
        | some ssl =>
          let t := t ++ [Call.BIO_new_dgram (toInt32 rtpSocket) BIO_NOCLOSE]
          let k := { k with bio := o.BIO_new_dgram }
          match o.BIO_new_dgram with
          | none =>
            Except.ok ⟨H.HANDSHAKE_ERROR_STATUS, fingerprint, { self with _k := some k },
              t ++ [Call.printf "Error: cannot create new BIO*.\n"]⟩
          | some bio =>
            let t := t ++ [Call.SSL_set_bio ssl bio bio]
            let t := if self.Debug then t ++ [Call.SSL_set_info_callback ssl] else t
            let t := t ++ [Call.SSL_set_connect_state ssl,
              Call.BIO_ctrl bio BIO_CTRL_DGRAM_SET_CONNECTED 0 pSvrAddr]
            let t := if o.BIO_ctrl ≤ 0 then
                t ++ [Call.printf "Error: BIO_CTL to set BIO_CTRL_DGRAM_SET_CONNECTED failed.\n"]
              else t
            let t := t ++ [Call.SSL_connect ssl]
            if o.SSL_connect ≤ 0 then
              Except.ok ⟨H.HANDSHAKE_ERROR_STATUS, fingerprint, { self with _k := some k },
                t ++ [Call.printf "Failed to complete SSL client connection handshake.\n"]⟩
            else
            let t := t ++ [Call.printf "DTLS client handshake completed.\n",
              Call.SSL_get_peer_certificate ssl]
            match o.SSL_get_peer_certificate with
            | some peerCert =>
              let digest := o.EVP_get_digestbyname "sha256"
              let d := o.X509_digest peerCert digest
              let t := t ++ [Call.EVP_get_digestbyname "sha256", Call.X509_digest peerCert digest]
              if d.ret = 1 then
                Except.ok ⟨0, some (marshalCopy d.fp d.length), { self with _k := some k },
                  t ++ [Call.X509_free peerCert, Call.ERR_print_errors_fp]⟩
              else
                Except.ok ⟨0, fingerprint, { self with _k := some k },
                  t ++ [Call.printf "Failed to get fingerprint for peer certificate.\n",
                    Call.X509_free peerCert, Call.ERR_print_errors_fp]⟩
            | none =>
              Except.ok ⟨0, fingerprint, { self with _k := some k }, t ++ [Call.ERR_print_errors_fp]⟩

/-! ## Completion test and teardown -/

/-- The library call `SSL_get_state(ssl)`.  It returns the field
`ssl->statem.hand_state` of the object it is given, so a null pointer is
dereferenced.  `st` gives the state held by each live object. -/
def SSL_get_state (st : SSL → Nat) (ssl : Option SSL) : Except Fault Nat :=
  match ssl with
  | none => Except.error Fault.nullDereference
  | some h => Except.ok (st h)

/-- The method `DtlsHandshake::IsHandshakeComplete()`. -/
def IsHandshakeComplete (st : SSL → Nat) (self : DtlsHandshake) : Except Fault Bool :=
  match self._k with
  | none => Except.error Fault.nullDereference
  | some k =>
    match SSL_get_state st k.ssl with
    | Except.error e => Except.error e
    | Except.ok v => Except.ok (decide (v = TLS_ST_OK))

/-- Reading through a pointer: a fault when it is null. -/
def deref {α : Type} (p : Option α) : Except Fault α :=
  match p with
  | none => Except.error Fault.nullDereference
  | some a => Except.ok a

/-- The method `DtlsHandshake::Shutdown()`: the object afterwards and the calls
made. -/
def Shutdown (self : DtlsHandshake) : Except Fault (DtlsHandshake × List Call) :=
  let t := [Call.ERR_print_errors_fp]
  if self._k ≠ none then
    match deref self._k with
    | Except.error e => Except.error e
    | Except.ok k =>
      let r1 : Except Fault (krx × List Call) :=
        if k.ctx ≠ none then
          match deref k.ctx with
          | Except.error e => Except.error e
          | Except.ok c => Except.ok ({ k with ctx := none }, t ++ [Call.SSL_CTX_free c])
        else Except.ok (k, t)
      match r1 with
      | Except.error e => Except.error e
      | Except.ok (k, t) =>
        let r2 : Except Fault (krx × List Call) :=
          if k.ssl ≠ none then
            match deref k.ssl with
            | Except.error e => Except.error e
            | Except.ok s =>
              Except.ok ({ k with ssl := none }, t ++ [Call.SSL_shutdown s, Call.SSL_free s])
          else Except.ok (k, t)
        match r2 with
        | Except.error e => Except.error e
        | Except.ok (_, t) => Except.ok ({ self with _k := none }, t)
  else Except.ok (self, t)

/-! ## Vocabulary of the statements -/

/-- The eight configuration steps all succeed, each by the success value its
library call documents: a non-null object for the three constructors, `0` for
the SRTP profile call and `1` for the other four. -/
def ConfigurationSucceeds (o : Outcomes) : Prop :=
  o.SSL_CTX_new ≠ none ∧ o.SSL_CTX_set_cipher_list = 1 ∧ o.SSL_CTX_set_tlsext_use_srtp = 0 ∧
  o.SSL_CTX_use_certificate_file = 1 ∧ o.SSL_CTX_use_PrivateKey_file = 1 ∧
  o.SSL_CTX_check_private_key = 1 ∧ o.SSL_new ≠ none ∧ o.BIO_new_dgram ≠ none

instance (o : Outcomes) : Decidable (ConfigurationSucceeds o) :=
  inferInstanceAs (Decidable (_ ∧ _))

/-- Every step of the server path up to and including `SSL_accept` succeeds. -/
def ServerStepsSucceed (o : Outcomes) : Prop :=
  ConfigurationSucceeds o ∧ 0 < o.SSL_accept

instance (o : Outcomes) : Decidable (ServerStepsSucceed o) :=
  inferInstanceAs (Decidable (_ ∧ _))

/-- Every fatal step of the client path up to and including `SSL_connect`
succeeds. -/
def ClientStepsSucceed (o : Outcomes) : Prop :=
  ConfigurationSucceeds o ∧ 0 < o.SSL_connect

instance (o : Outcomes) : Decidable (ClientStepsSucceed o) :=
  inferInstanceAs (Decidable (_ ∧ _))

/-- The result of the digest call the methods make on a peer certificate. -/
def peerDigest (o : Outcomes) (c : X509) : DigestResult :=
  o.X509_digest c (o.EVP_get_digestbyname "sha256")

/-- The caller's fingerprint handle after a handshake that completed. -/
def fingerprintAfter (o : Outcomes) (fingerprint : Option (List Byte)) : Option (List Byte) :=
  match o.SSL_get_peer_certificate with
  | none => fingerprint
  | some c =>
    if (peerDigest o c).ret = 1 then some ((peerDigest o c).fp.take (peerDigest o c).length)
    else fingerprint

/-- The peer presented a certificate and its digest could not be computed. -/
def DigestFails (o : Outcomes) : Prop :=
  ∃ c, o.SSL_get_peer_certificate = some c ∧ (peerDigest o c).ret ≠ 1

/-- The diagnostic line printed when the digest call fails. -/
def digestFailureLine : Call :=
  Call.printf "Failed to get fingerprint for peer certificate.\n"

/-- The address bytes fit the address field selected by the family tag. -/
def AddressFits (svrAddrFamily : Int) (addrBytes : List Byte) : Prop :=
  addrBytes.length ≤ (if svrAddrFamily = AF_INET6 then sizeof_in6_addr else sizeof_in_addr)

instance (f : Int) (b : List Byte) : Decidable (AddressFits f b) :=
  inferInstanceAs (Decidable (_ ≤ _))

/-- Calls that create per-connection protocol state or exchange datagrams. -/
def opensSession : Call → Bool
  | Call.SSL_new _ => true
  | Call.BIO_new_dgram _ _ => true
  | Call.SSL_accept _ => true
  | Call.SSL_connect _ => true
  | _ => false

/-- Calls that release a library object. -/
def releases : Call → Bool
  | Call.SSL_CTX_free _ => true
  | Call.SSL_free _ => true
  | _ => false

/-- Calls that free a protocol context. -/
def freesContext : Call → Bool
  | Call.SSL_CTX_free _ => true
  | _ => false

/-- Calls that free an `SSL` object. -/
def freesSsl : Call → Bool
  | Call.SSL_free _ => true
  | _ => false

/-- A call of either role read as the matching call of the server role; the
diagnostic text and the peer-address binding have no counterpart. -/
def roleNeutral : Call → Option Call
  | Call.printf _ => none
  | Call.BIO_ctrl _ _ _ _ => none
  | Call.SSL_CTX_new _ => some (Call.SSL_CTX_new Method.DTLS_server_method)
  | Call.SSL_set_connect_state s => some (Call.SSL_set_accept_state s)
  | Call.SSL_connect s => some (Call.SSL_accept s)
  | c => some c

/-- The calls only the client path makes around the negotiation. -/
def clientNegotiationCall : Call → Bool
  | Call.SSL_set_connect_state _ => true
  | Call.BIO_ctrl _ _ _ _ => true
  | Call.SSL_connect _ => true
  | _ => false

/-- The role a handshake method is run in; the client role carries the extra
arguments of `DoHandshakeAsClient` and the memory its address copy reads. -/
inductive Role where
  | server
  | client (src : Nat → Byte) (svrAddrFamily : Int) (addrBytes : List Byte) (svrPort : Nat)

/-- A run of the handshake method of the given role. -/
def DoHandshake (ρ : Role) (H : Header) (o : Outcomes) (self : DtlsHandshake) (rtpSocket : Nat)
    (fingerprint : Option (List Byte)) : Except Fault Result :=
  match ρ with
  | Role.server => DoHandshakeAsServer H o self rtpSocket fingerprint
  | Role.client src svrAddrFamily addrBytes svrPort =>
    DoHandshakeAsClient H o src self rtpSocket svrAddrFamily addrBytes svrPort fingerprint

/-- Every fatal step of the method of the given role succeeds. -/
def StepsSucceed (ρ : Role) (o : Outcomes) : Prop :=
  match ρ with
  | Role.server => ServerStepsSucceed o
  | Role.client _ _ _ _ => ClientStepsSucceed o

instance (ρ : Role) (o : Outcomes) : Decidable (StepsSucceed ρ o) :=
  match ρ with
  | Role.server => inferInstanceAs (Decidable (ServerStepsSucceed o))
  | Role.client _ _ _ _ => inferInstanceAs (Decidable (ClientStepsSucceed o))

/-- The address arguments of the role, if any, fit their address field. -/
def RoleAddressFits (ρ : Role) : Prop :=
  match ρ with
  | Role.server => True
  | Role.client _ svrAddrFamily addrBytes _ => AddressFits svrAddrFamily addrBytes

instance (ρ : Role) : Decidable (RoleAddressFits ρ) :=
  match ρ with
  | Role.server => inferInstanceAs (Decidable True)
  | Role.client _ f b _ => inferInstanceAs (Decidable (AddressFits f b))

/-- The library contract for the digest named `sha256`: a successful
`X509_digest` stores the length 32 and leaves the SHA-256 digest of the
certificate at the start of the 64-byte buffer. -/
def Sha256Library (sha256 : X509 → List Byte) (o : Outcomes) : Prop :=
  ∀ c, (peerDigest o c).ret = 1 →
    (peerDigest o c).length = 32 ∧ (peerDigest o c).fp.length = EVP_MAX_MD_SIZE ∧
    (peerDigest o c).fp.take 32 = sha256 c

/-! ## Sample inputs -/

/-- A header with the error status `-1`. -/
def sampleHeader : Header :=
  ⟨-1, "SRTP_AES128_CM_SHA1_80", [115, 105, 112, 0]⟩

/-- A run in which every call succeeds and the peer certificate `4` digests to
the 32 bytes `4, 5, ..., 35`. -/
def allSucceed : Outcomes :=
  { SSL_CTX_new := some 1
    SSL_CTX_set_cipher_list := 1
    SSL_CTX_set_tlsext_use_srtp := 0
    SSL_CTX_use_certificate_file := 1
    SSL_CTX_use_PrivateKey_file := 1
    SSL_CTX_check_private_key := 1
    SSL_new := some 2
    BIO_new_dgram := some 3
    BIO_ctrl := 1
    SSL_accept := 1
    SSL_connect := 1
    SSL_get_peer_certificate := some 4
    EVP_get_digestbyname := fun _ => some 5
    X509_digest := fun c _ => ⟨1, (List.range 64).map (fun i => i + c), 32⟩ }

/-- A freshly constructed object. -/
def freshObject : DtlsHandshake :=
  (DtlsHandshake.new true "localhost.pem" "localhost_key.pem" false).1

/-- Memory content used for the source of the address copy. -/
def sampleMemory : Nat → Byte := fun i => i % 256

/-- The digest function computed by the library of the sample runs. -/
def sampleSha256 : X509 → List Byte := fun c => (List.range 32).map (fun i => i + c)

/-- A run that completes but cannot digest the peer certificate. -/
def digestFails : Outcomes :=
  { allSucceed with X509_digest := fun _ _ => ⟨0, List.replicate 64 0, 0⟩ }

/-- A run that completes without a peer certificate. -/
def noCertificate : Outcomes :=
  { allSucceed with SSL_get_peer_certificate := none }

/-- A client role with a four-byte address. -/
def sampleClient : Role := Role.client sampleMemory AF_INET [127, 0, 0, 1] 5000

/-! ## Auxiliary lemmas -/

/-- The address block completes when the address bytes fit. -/
theorem prepareSvrAddr_ok (src : Nat → Byte) (svrAddrFamily : Int) (addrBytes : List Byte)
    (svrPort : Nat) (ha : AddressFits svrAddrFamily addrBytes) :
    ∃ a, prepareSvrAddr src svrAddrFamily addrBytes svrPort = Except.ok a := by
  unfold AddressFits at ha
  unfold prepareSvrAddr memcpy_s
  by_cases hf : svrAddrFamily = AF_INET6
  · rw [if_pos hf] at ha
    rw [if_pos hf]
    by_cases h0 : addrBytes.length = 0
    · rw [if_pos h0]; exact ⟨_, rfl⟩
    · rw [if_neg h0, if_neg (not_lt.mpr ha)]; exact ⟨_, rfl⟩
  · rw [if_neg hf] at ha
    rw [if_neg hf]
    by_cases h0 : addrBytes.length = 0
    · rw [if_pos h0]; exact ⟨_, rfl⟩
    · rw [if_neg h0, if_neg (not_lt.mpr ha)]; exact ⟨_, rfl⟩

/-- The address block ends the run when the address bytes do not fit. -/
theorem prepareSvrAddr_fault (src : Nat → Byte) (svrAddrFamily : Int) (addrBytes : List Byte)
    (svrPort : Nat) (ha : ¬ AddressFits svrAddrFamily addrBytes) :
    prepareSvrAddr src svrAddrFamily addrBytes svrPort = Except.error Fault.invalidParameter := by
  unfold AddressFits at ha
  unfold prepareSvrAddr memcpy_s
  by_cases hf : svrAddrFamily = AF_INET6
  · rw [if_pos hf] at ha
    rw [if_pos hf]
    have h0 : ¬ addrBytes.length = 0 := by omega
    rw [if_neg h0, if_pos (not_le.mp ha)]
  · rw [if_neg hf] at ha
    rw [if_neg hf]
    have h0 : ¬ addrBytes.length = 0 := by omega
    rw [if_neg h0, if_pos (not_le.mp ha)]

/-- A server run with a failing fatal step returns the error status and does
not touch the fingerprint handle. -/
theorem server_failure (H : Header) (o : Outcomes) (self : DtlsHandshake) (k : krx)
    (rtpSocket : Nat) (fingerprint : Option (List Byte))
    (hk : self._k = some k) (hf : ¬ ServerStepsSucceed o) :
    ∃ r, DoHandshakeAsServer H o self rtpSocket fingerprint = Except.ok r ∧
      r.ret = H.HANDSHAKE_ERROR_STATUS ∧ r.fingerprint = fingerprint := by
  unfold DoHandshakeAsServer
  rw [hk]
  dsimp only
  cases h1 : o.SSL_CTX_new with
  | none => exact ⟨_, rfl, rfl, rfl⟩
  | some ctx =>
  dsimp only
  by_cases h2 : o.SSL_CTX_set_cipher_list ≠ 1
  · rw [if_pos h2]; exact ⟨_, rfl, rfl, rfl⟩
  rw [if_neg h2]
  by_cases h3 : o.SSL_CTX_set_tlsext_use_srtp ≠ 0
  · rw [if_pos h3]; exact ⟨_, rfl, rfl, rfl⟩
  rw [if_neg h3]
  by_cases h4 : o.SSL_CTX_use_certificate_file ≠ 1
  · rw [if_pos h4]; exact ⟨_, rfl, rfl, rfl⟩
  rw [if_neg h4]
  by_cases h5 : o.SSL_CTX_use_PrivateKey_file ≠ 1
  · rw [if_pos h5]; exact ⟨_, rfl, rfl, rfl⟩
  rw [if_neg h5]
  by_cases h6 : o.SSL_CTX_check_private_key ≠ 1
  · rw [if_pos h6]; exact ⟨_, rfl, rfl, rfl⟩
  rw [if_neg h6]
  cases h7 : o.SSL_new with
  | none => exact ⟨_, rfl, rfl, rfl⟩
  | some ssl =>
  dsimp only
  cases h8 : o.BIO_new_dgram with
  | none => exact ⟨_, rfl, rfl, rfl⟩
  | some bio =>
  dsimp only
  by_cases h9 : o.SSL_accept ≤ 0
  · rw [if_pos h9]; exact ⟨_, rfl, rfl, rfl⟩
  rw [if_neg h9]
  exfalso
  apply hf
  simp only [ne_eq, not_not] at h2 h3 h4 h5 h6
  simp only [ServerStepsSucceed, ConfigurationSucceeds, h1, h2, h3, h4, h5, h6, h7, h8]
  simp
  omega

/-- A server run whose fatal steps all succeed returns `0`; the fingerprint
handle is assigned exactly when a peer certificate was digested, and the
digest-failure line is printed exactly when the digest call failed. -/
theorem server_success (H : Header) (o : Outcomes) (self : DtlsHandshake) (k : krx)
    (rtpSocket : Nat) (fingerprint : Option (List Byte))
    (hk : self._k = some k) (hs : ServerStepsSucceed o) :
    ∃ r, DoHandshakeAsServer H o self rtpSocket fingerprint = Except.ok r ∧
      r.ret = 0 ∧ r.fingerprint = fingerprintAfter o fingerprint ∧
      (digestFailureLine ∈ r.trace ↔ DigestFails o) := by
  obtain ⟨⟨s1, s2, s3, s4, s5, s6, s7, s8⟩, s9⟩ := hs
  obtain ⟨_k, cf, kf, dbg⟩ := self
  simp only at hk
  subst hk
  unfold DoHandshakeAsServer
  dsimp only
  cases h1 : o.SSL_CTX_new with
  | none => contradiction
  | some ctx =>
  dsimp only
  by_cases h2 : o.SSL_CTX_set_cipher_list ≠ 1
  · rw [if_pos h2]; contradiction
  rw [if_neg h2]
  by_cases h3 : o.SSL_CTX_set_tlsext_use_srtp ≠ 0
  · rw [if_pos h3]; contradiction
  rw [if_neg h3]
  by_cases h4 : o.SSL_CTX_use_certificate_file ≠ 1
  · rw [if_pos h4]; contradiction
  rw [if_neg h4]
  by_cases h5 : o.SSL_CTX_use_PrivateKey_file ≠ 1
  · rw [if_pos h5]; contradiction
  rw [if_neg h5]
  by_cases h6 : o.SSL_CTX_check_private_key ≠ 1
  · rw [if_pos h6]; contradiction
  rw [if_neg h6]
  cases h7 : o.SSL_new with
  | none => contradiction
  | some ssl =>
  dsimp only
  cases h8 : o.BIO_new_dgram with
  | none => contradiction
  | some bio =>
  dsimp only
  by_cases h9 : o.SSL_accept ≤ 0
  · rw [if_pos h9]; exact absurd s9 (not_lt.mpr h9)
  rw [if_neg h9]
  cases hc : o.SSL_get_peer_certificate with
  | none =>
    refine ⟨_, rfl, rfl, ?_, ?_⟩
    · simp [fingerprintAfter, hc]
    · cases dbg <;> simp [digestFailureLine, DigestFails, hc]
  | some c =>
    dsimp only
    by_cases hd : (o.X509_digest c (o.EVP_get_digestbyname "sha256")).ret = 1
    · rw [if_pos hd]
      refine ⟨_, rfl, rfl, ?_, ?_⟩
      · simp [fingerprintAfter, hc, peerDigest, hd, marshalCopy]
      · cases dbg <;> simp [digestFailureLine, DigestFails, hc, peerDigest, hd]
    · rw [if_neg hd]
      refine ⟨_, rfl, rfl, ?_, ?_⟩
      · simp [fingerprintAfter, hc, peerDigest, hd]
      · cases dbg <;> simp [digestFailureLine, DigestFails, hc, peerDigest, hd]

/-- A client run with a failing fatal step returns the error status and does
not touch the fingerprint handle. -/
theorem client_failure (H : Header) (o : Outcomes) (self : DtlsHandshake) (k : krx)
    (src : Nat → Byte) (rtpSocket : Nat) (svrAddrFamily : Int)
    (addrBytes : List Byte) (svrPort : Nat) (fingerprint : Option (List Byte))
    (hk : self._k = some k) (ha : AddressFits svrAddrFamily addrBytes) (hf : ¬ ClientStepsSucceed o) :
    ∃ r, DoHandshakeAsClient H o src self rtpSocket svrAddrFamily addrBytes svrPort fingerprint = Except.ok r ∧
      r.ret = H.HANDSHAKE_ERROR_STATUS ∧ r.fingerprint = fingerprint := by
  obtain ⟨a, hp⟩ := prepareSvrAddr_ok src svrAddrFamily addrBytes svrPort ha
  unfold DoHandshakeAsClient
  rw [hp]
  dsimp only
  rw [hk]
  dsimp only
  cases h1 : o.SSL_CTX_new with
  | none => exact ⟨_, rfl, rfl, rfl⟩
  | some ctx =>
  dsimp only
  by_cases h2 : o.SSL_CTX_set_cipher_list ≠ 1
  · rw [if_pos h2]; exact ⟨_, rfl, rfl, rfl⟩
  rw [if_neg h2]
  by_cases h3 : o.SSL_CTX_set_tlsext_use_srtp ≠ 0
  · rw [if_pos h3]; exact ⟨_, rfl, rfl, rfl⟩
  rw [if_neg h3]
  by_cases h4 : o.SSL_CTX_use_certificate_file ≠ 1
  · rw [if_pos h4]; exact ⟨_, rfl, rfl, rfl⟩
  rw [if_neg h4]
  by_cases h5 : o.SSL_CTX_use_PrivateKey_file ≠ 1
  · rw [if_pos h5]; exact ⟨_, rfl, rfl, rfl⟩
  rw [if_neg h5]
  by_cases h6 : o.SSL_CTX_check_private_key ≠ 1
  · rw [if_pos h6]; exact ⟨_, rfl, rfl, rfl⟩
  rw [if_neg h6]
  cases h7 : o.SSL_new with
  | none => exact ⟨_, rfl, rfl, rfl⟩
  | some ssl =>
  dsimp only
  cases h8 : o.BIO_new_dgram with
  | none => exact ⟨_, rfl, rfl, rfl⟩
  | some bio =>
  dsimp only
  by_cases h9 : o.SSL_connect ≤ 0
  · rw [if_pos h9]; exact ⟨_, rfl, rfl, rfl⟩
  rw [if_neg h9]
  exfalso
  apply hf
  simp only [ne_eq, not_not] at h2 h3 h4 h5 h6
  simp only [ClientStepsSucceed, ConfigurationSucceeds, h1, h2, h3, h4, h5, h6, h7, h8]
  simp
  omega

/-- A client run whose fatal steps all succeed returns `0`; the fingerprint
handle is assigned exactly when a peer certificate was digested, and the
digest-failure line is printed exactly when the digest call failed. -/
theorem client_success (H : Header) (o : Outcomes) (self : DtlsHandshake) (k : krx)
    (src : Nat → Byte) (rtpSocket : Nat) (svrAddrFamily : Int)
    (addrBytes : List Byte) (svrPort : Nat) (fingerprint : Option (List Byte))
    (hk : self._k = some k) (ha : AddressFits svrAddrFamily addrBytes) (hs : ClientStepsSucceed o) :
    ∃ r, DoHandshakeAsClient H o src self rtpSocket svrAddrFamily addrBytes svrPort fingerprint = Except.ok r ∧
      r.ret = 0 ∧ r.fingerprint = fingerprintAfter o fingerprint ∧
      (digestFailureLine ∈ r.trace ↔ DigestFails o) := by
  obtain ⟨⟨s1, s2, s3, s4, s5, s6, s7, s8⟩, s9⟩ := hs
  obtain ⟨_k, cf, kf, dbg⟩ := self
  simp only at hk
  subst hk
  obtain ⟨a, hp⟩ := prepareSvrAddr_ok src svrAddrFamily addrBytes svrPort ha
  unfold DoHandshakeAsClient
  rw [hp]
  dsimp only
  cases h1 : o.SSL_CTX_new with
  | none => contradiction
  | some ctx =>
  dsimp only
  by_cases h2 : o.SSL_CTX_set_cipher_list ≠ 1
  · rw [if_pos h2]; contradiction
  rw [if_neg h2]
  by_cases h3 : o.SSL_CTX_set_tlsext_use_srtp ≠ 0
  · rw [if_pos h3]; contradiction
  rw [if_neg h3]
  by_cases h4 : o.SSL_CTX_use_certificate_file ≠ 1
  · rw [if_pos h4]; contradiction
  rw [if_neg h4]
  by_cases h5 : o.SSL_CTX_use_PrivateKey_file ≠ 1
  · rw [if_pos h5]; contradiction
  rw [if_neg h5]
  by_cases h6 : o.SSL_CTX_check_private_key ≠ 1
  · rw [if_pos h6]; contradiction
  rw [if_neg h6]
  cases h7 : o.SSL_new with
  | none => contradiction
  | some ssl =>
  dsimp only
  cases h8 : o.BIO_new_dgram with
  | none => contradiction
  | some bio =>
  dsimp only
  by_cases h9 : o.SSL_connect ≤ 0
  · rw [if_pos h9]; exact absurd s9 (not_lt.mpr h9)
  rw [if_neg h9]
  cases hc : o.SSL_get_peer_certificate with
  | none =>
    refine ⟨_, rfl, rfl, ?_, ?_⟩
    · simp [fingerprintAfter, hc]
    · cases dbg <;> by_cases hb : o.BIO_ctrl ≤ 0 <;> simp [digestFailureLine, DigestFails, hc, hb]
  | some c =>
    dsimp only
    by_cases hd : (o.X509_digest c (o.EVP_get_digestbyname "sha256")).ret = 1
    · rw [if_pos hd]
      refine ⟨_, rfl, rfl, ?_, ?_⟩
      · simp [fingerprintAfter, hc, peerDigest, hd, marshalCopy]
      · cases dbg <;> by_cases hb : o.BIO_ctrl ≤ 0 <;> simp [digestFailureLine, DigestFails, hc, peerDigest, hd, hb]
    · rw [if_neg hd]
      refine ⟨_, rfl, rfl, ?_, ?_⟩
      · simp [fingerprintAfter, hc, peerDigest, hd]
      · cases dbg <;> by_cases hb : o.BIO_ctrl ≤ 0 <;> simp [digestFailureLine, DigestFails, hc, peerDigest, hd, hb]

/-- A run of either role with a failing fatal step returns the error status
and does not touch the fingerprint handle. -/
theorem handshake_failure (ρ : Role) (H : Header) (o : Outcomes) (self : DtlsHandshake) (k : krx)
    (rtpSocket : Nat) (fingerprint : Option (List Byte)) (hk : self._k = some k)
    (ha : RoleAddressFits ρ) (hf : ¬ StepsSucceed ρ o) :
    ∃ r, DoHandshake ρ H o self rtpSocket fingerprint = Except.ok r ∧
      r.ret = H.HANDSHAKE_ERROR_STATUS ∧ r.fingerprint = fingerprint := by
  cases ρ with
  | server => exact server_failure H o self k rtpSocket fingerprint hk hf
  | client src f b p => exact client_failure H o self k src rtpSocket f b p fingerprint hk ha hf

/-- A run of either role whose fatal steps all succeed returns `0`. -/
theorem handshake_success (ρ : Role) (H : Header) (o : Outcomes) (self : DtlsHandshake) (k : krx)
    (rtpSocket : Nat) (fingerprint : Option (List Byte)) (hk : self._k = some k)
    (ha : RoleAddressFits ρ) (hs : StepsSucceed ρ o) :
    ∃ r, DoHandshake ρ H o self rtpSocket fingerprint = Except.ok r ∧
      r.ret = 0 ∧ r.fingerprint = fingerprintAfter o fingerprint ∧
      (digestFailureLine ∈ r.trace ↔ DigestFails o) := by
  cases ρ with
  | server => exact server_success H o self k rtpSocket fingerprint hk hs
  | client src f b p => exact client_success H o self k src rtpSocket f b p fingerprint hk ha hs

/-- The sample library computes the sample digest function. -/
theorem allSucceed_sha256 : Sha256Library sampleSha256 allSucceed := by
  intro c _
  refine ⟨rfl, by simp [peerDigest, allSucceed, EVP_MAX_MD_SIZE], ?_⟩
  simp [peerDigest, allSucceed, sampleSha256, ← List.map_take, List.take_range]

/-- `Shutdown` on an object whose record holds the context `ctx` completes,
frees that context with its single `SSL_CTX_free` call and leaves the object
without a record. -/
theorem Shutdown_frees_held_context (self : DtlsHandshake) (k : krx) (ctx : SSL_CTX)
    (hk : self._k = some k) (hc : k.ctx = some ctx) :
    ∃ s t, Shutdown self = Except.ok (s, t) ∧ s._k = none ∧
      Call.SSL_CTX_free ctx ∈ t ∧ t.countP freesContext = 1 := by
  obtain ⟨_k, cf, kf, dbg⟩ := self
  obtain ⟨kc, _ | ssl, kb⟩ := k
  all_goals
    simp only at hk hc
    subst hk
    subst hc
    refine ⟨_, _, rfl, rfl, ?_, ?_⟩ <;> simp [List.countP_cons, freesContext]

/-! ## C1: the status of the server path -/

/-- C1. On a live object and with a non-zero error status,
`DoHandshakeAsServer` returns to its caller for every combination of outcomes
of the library steps; it returns `0` exactly when context creation, cipher
list, SRTP profile, certificate load, key load, key check, `SSL` creation,
`BIO` creation and `SSL_accept` all succeed, and when one of them fails it
returns `HANDSHAKE_ERROR_STATUS` and leaves the fingerprint handle as it
was. -/
theorem DoHandshakeAsServer_status (H : Header) (o : Outcomes) (self : DtlsHandshake) (k : krx)
    (rtpSocket : Nat) (fingerprint : Option (List Byte)) (hk : self._k = some k)
    (hE : H.HANDSHAKE_ERROR_STATUS ≠ 0) :
    ∃ r, DoHandshakeAsServer H o self rtpSocket fingerprint = Except.ok r ∧
      (r.ret = 0 ↔ ServerStepsSucceed o) ∧
      (¬ ServerStepsSucceed o →
        r.ret = H.HANDSHAKE_ERROR_STATUS ∧ r.fingerprint = fingerprint) := by
  by_cases hs : ServerStepsSucceed o
  · obtain ⟨r, hr, h0, _, _⟩ := server_success H o self k rtpSocket fingerprint hk hs
    exact ⟨r, hr, ⟨fun _ => hs, fun _ => h0⟩, fun hn => absurd hs hn⟩
  · obtain ⟨r, hr, he, hfp⟩ := server_failure H o self k rtpSocket fingerprint hk hs
    refine ⟨r, hr, ⟨fun h => ?_, fun h => absurd h hs⟩, fun _ => ⟨he, hfp⟩⟩
    exact absurd (he.symm.trans h) hE

/-- C1 at a run whose key check fails, on a fresh object. -/
theorem DoHandshakeAsServer_status_witness :
    (freshObject._k = some ⟨none, none, none⟩ ∧ sampleHeader.HANDSHAKE_ERROR_STATUS ≠ 0) ∧
    ∃ r, DoHandshakeAsServer sampleHeader { allSucceed with SSL_CTX_check_private_key := 0 }
        freshObject 7 (some [9]) = Except.ok r ∧
      (r.ret = 0 ↔ ServerStepsSucceed { allSucceed with SSL_CTX_check_private_key := 0 }) ∧
      (¬ ServerStepsSucceed { allSucceed with SSL_CTX_check_private_key := 0 } →
        r.ret = sampleHeader.HANDSHAKE_ERROR_STATUS ∧ r.fingerprint = some [9]) :=
  ⟨⟨rfl, by decide⟩,
    DoHandshakeAsServer_status sampleHeader { allSucceed with SSL_CTX_check_private_key := 0 }
      freshObject ⟨none, none, none⟩ 7 (some [9]) rfl (by decide)⟩

/-! ## C2: what a failed handshake returns -/

/-- C2 as stated fails.  A server run that cannot create the context, one whose
cipher list is refused, one whose key does not match the certificate, one
whose `SSL_accept` fails, and a client run whose `SSL_connect` fails all
return the same value. -/
theorem failing_phases_return_equal_values :
    ∃ r1 r2 r3 r4 r5,
      DoHandshakeAsServer sampleHeader { allSucceed with SSL_CTX_new := none }
        freshObject 7 none = Except.ok r1 ∧
      DoHandshakeAsServer sampleHeader { allSucceed with SSL_CTX_set_cipher_list := 0 }
        freshObject 7 none = Except.ok r2 ∧
      DoHandshakeAsServer sampleHeader { allSucceed with SSL_CTX_check_private_key := 0 }
        freshObject 7 none = Except.ok r3 ∧
      DoHandshakeAsServer sampleHeader { allSucceed with SSL_accept := -1 }
        freshObject 7 none = Except.ok r4 ∧
      DoHandshakeAsClient sampleHeader { allSucceed with SSL_connect := -1 } sampleMemory
        freshObject 7 AF_INET [127, 0, 0, 1] 5000 none = Except.ok r5 ∧
      r1.ret = r2.ret ∧ r2.ret = r3.ret ∧ r3.ret = r4.ret ∧ r4.ret = r5.ret :=
  ⟨_, _, _, _, _, rfl, rfl, rfl, rfl, rfl, rfl, rfl, rfl, rfl⟩

/-- C2, amended.  Any two failed handshakes, whatever their roles and whatever
step failed in each, return the same value, the single status
`HANDSHAKE_ERROR_STATUS`. -/
theorem failed_handshakes_return_one_status (H : Header) (ρ₁ ρ₂ : Role) (o₁ o₂ : Outcomes)
    (self₁ self₂ : DtlsHandshake) (k₁ k₂ : krx) (rtpSocket₁ rtpSocket₂ : Nat)
    (fingerprint₁ fingerprint₂ : Option (List Byte))
    (hk₁ : self₁._k = some k₁) (hk₂ : self₂._k = some k₂)
    (ha₁ : RoleAddressFits ρ₁) (ha₂ : RoleAddressFits ρ₂)
    (hf₁ : ¬ StepsSucceed ρ₁ o₁) (hf₂ : ¬ StepsSucceed ρ₂ o₂) :
    ∃ r₁ r₂, DoHandshake ρ₁ H o₁ self₁ rtpSocket₁ fingerprint₁ = Except.ok r₁ ∧
      DoHandshake ρ₂ H o₂ self₂ rtpSocket₂ fingerprint₂ = Except.ok r₂ ∧
      r₁.ret = H.HANDSHAKE_ERROR_STATUS ∧ r₂.ret = r₁.ret := by
  obtain ⟨r₁, e₁, s₁, _⟩ := handshake_failure ρ₁ H o₁ self₁ k₁ rtpSocket₁ fingerprint₁ hk₁ ha₁ hf₁
  obtain ⟨r₂, e₂, s₂, _⟩ := handshake_failure ρ₂ H o₂ self₂ k₂ rtpSocket₂ fingerprint₂ hk₂ ha₂ hf₂
  exact ⟨r₁, r₂, e₁, e₂, s₁, s₂.trans s₁.symm⟩

/-- C2 amended, at a server run without context and a client run whose
negotiation fails. -/
theorem failed_handshakes_return_one_status_witness :
    (freshObject._k = some ⟨none, none, none⟩ ∧ freshObject._k = some ⟨none, none, none⟩ ∧
      RoleAddressFits Role.server ∧ RoleAddressFits sampleClient ∧
      ¬ StepsSucceed Role.server { allSucceed with SSL_CTX_new := none } ∧
      ¬ StepsSucceed sampleClient { allSucceed with SSL_connect := 0 }) ∧
    ∃ r₁ r₂,
      DoHandshake Role.server sampleHeader { allSucceed with SSL_CTX_new := none }
        freshObject 7 none = Except.ok r₁ ∧
      DoHandshake sampleClient sampleHeader { allSucceed with SSL_connect := 0 }
        freshObject 8 none = Except.ok r₂ ∧
      r₁.ret = sampleHeader.HANDSHAKE_ERROR_STATUS ∧ r₂.ret = r₁.ret :=
  ⟨⟨rfl, rfl, by decide, by decide, by decide, by decide⟩,
    failed_handshakes_return_one_status sampleHeader Role.server sampleClient
      { allSucceed with SSL_CTX_new := none } { allSucceed with SSL_connect := 0 }
      freshObject freshObject ⟨none, none, none⟩ ⟨none, none, none⟩ 7 8 none none rfl rfl
      (by decide) (by decide) (by decide) (by decide)⟩

/-! ## C3: the fingerprint -/

/-- C3. Take two runs that complete, in any roles, on any objects and sockets,
in both of which the peer presented the certificate `c` and the digest call
succeeded, against a library whose `sha256` digest is the function `sha256`.
Both hand back the same fingerprint: the SHA-256 digest of `c`, 32 bytes
long. -/
theorem fingerprint_is_sha256_of_peer_certificate (sha256 : X509 → List Byte) (c : X509)
    (H₁ H₂ : Header) (ρ₁ ρ₂ : Role) (o₁ o₂ : Outcomes) (self₁ self₂ : DtlsHandshake)
    (k₁ k₂ : krx) (rtpSocket₁ rtpSocket₂ : Nat) (fingerprint₁ fingerprint₂ : Option (List Byte))
    (hk₁ : self₁._k = some k₁) (hk₂ : self₂._k = some k₂)
    (ha₁ : RoleAddressFits ρ₁) (ha₂ : RoleAddressFits ρ₂)
    (hl₁ : Sha256Library sha256 o₁) (hl₂ : Sha256Library sha256 o₂)
    (hs₁ : StepsSucceed ρ₁ o₁) (hs₂ : StepsSucceed ρ₂ o₂)
    (hc₁ : o₁.SSL_get_peer_certificate = some c) (hc₂ : o₂.SSL_get_peer_certificate = some c)
    (hd₁ : (peerDigest o₁ c).ret = 1) (hd₂ : (peerDigest o₂ c).ret = 1) :
    ∃ r₁ r₂, DoHandshake ρ₁ H₁ o₁ self₁ rtpSocket₁ fingerprint₁ = Except.ok r₁ ∧
      DoHandshake ρ₂ H₂ o₂ self₂ rtpSocket₂ fingerprint₂ = Except.ok r₂ ∧
      r₁.ret = 0 ∧ r₂.ret = 0 ∧
      r₁.fingerprint = some (sha256 c) ∧ r₂.fingerprint = r₁.fingerprint ∧
      (∀ d, r₁.fingerprint = some d → d.length = 32) := by
  obtain ⟨r₁, e₁, z₁, f₁, _⟩ :=
    handshake_success ρ₁ H₁ o₁ self₁ k₁ rtpSocket₁ fingerprint₁ hk₁ ha₁ hs₁
  obtain ⟨r₂, e₂, z₂, f₂, _⟩ :=
    handshake_success ρ₂ H₂ o₂ self₂ k₂ rtpSocket₂ fingerprint₂ hk₂ ha₂ hs₂
  obtain ⟨l₁, b₁, t₁⟩ := hl₁ c hd₁
  obtain ⟨l₂, _, t₂⟩ := hl₂ c hd₂
  have g₁ : r₁.fingerprint = some (sha256 c) := by
    rw [f₁, fingerprintAfter, hc₁]
    dsimp only
    rw [if_pos hd₁, l₁, t₁]
  have g₂ : r₂.fingerprint = some (sha256 c) := by
    rw [f₂, fingerprintAfter, hc₂]
    dsimp only
    rw [if_pos hd₂, l₂, t₂]
  refine ⟨r₁, r₂, e₁, e₂, z₁, z₂, g₁, g₂.trans g₁.symm, ?_⟩
  intro d hd
  rw [g₁] at hd
  cases hd
  rw [← t₁, List.length_take, b₁]
  rfl

/-- C3 at a server run and a client run that both meet the peer certificate
`4`. -/
theorem fingerprint_is_sha256_of_peer_certificate_witness :
    (freshObject._k = some ⟨none, none, none⟩ ∧
      RoleAddressFits Role.server ∧ RoleAddressFits sampleClient ∧
      Sha256Library sampleSha256 allSucceed ∧
      StepsSucceed Role.server allSucceed ∧ StepsSucceed sampleClient allSucceed ∧
      allSucceed.SSL_get_peer_certificate = some 4 ∧ (peerDigest allSucceed 4).ret = 1) ∧
    ∃ r₁ r₂,
      DoHandshake Role.server sampleHeader allSucceed freshObject 7 none = Except.ok r₁ ∧
      DoHandshake sampleClient sampleHeader allSucceed freshObject 8 (some [1]) = Except.ok r₂ ∧
      r₁.ret = 0 ∧ r₂.ret = 0 ∧
      r₁.fingerprint = some (sampleSha256 4) ∧ r₂.fingerprint = r₁.fingerprint ∧
      (∀ d, r₁.fingerprint = some d → d.length = 32) :=
  ⟨⟨rfl, by decide, by decide, allSucceed_sha256, by decide, by decide, rfl, rfl⟩,
    fingerprint_is_sha256_of_peer_certificate sampleSha256 4 sampleHeader sampleHeader
      Role.server sampleClient allSucceed allSucceed freshObject freshObject
      ⟨none, none, none⟩ ⟨none, none, none⟩ 7 8 none (some [1]) rfl rfl
      (by decide) (by decide) allSucceed_sha256 allSucceed_sha256 (by decide) (by decide)
      rfl rfl rfl rfl⟩

/-! ## C4: a digest failure after a completed handshake -/

/-- C4 as stated fails.  In both roles the run that cannot digest the peer
certificate and the run without a peer certificate return the same status and
the same fingerprint handle. -/
theorem digest_failure_returns_as_missing_certificate :
    ∃ r1 r2 r3 r4,
      DoHandshakeAsServer sampleHeader digestFails freshObject 7 none = Except.ok r1 ∧
      DoHandshakeAsServer sampleHeader noCertificate freshObject 7 none = Except.ok r2 ∧
      DoHandshakeAsClient sampleHeader digestFails sampleMemory freshObject 7 AF_INET
        [127, 0, 0, 1] 5000 none = Except.ok r3 ∧
      DoHandshakeAsClient sampleHeader noCertificate sampleMemory freshObject 7 AF_INET
        [127, 0, 0, 1] 5000 none = Except.ok r4 ∧
      (r1.ret, r1.fingerprint) = (r2.ret, r2.fingerprint) ∧
      (r3.ret, r3.fingerprint) = (r4.ret, r4.fingerprint) :=
  ⟨_, _, _, _, rfl, rfl, rfl, rfl, rfl, rfl⟩

/-- C4, amended.  For a handshake that completes, in either role, the run in
which the digest of the peer certificate fails and the run in which the peer
presents no certificate return the same status `0` and both leave the
fingerprint handle as it was; they differ only in the calls made, the first
printing the digest-failure line and the second not. -/
theorem digest_failure_differs_only_in_diagnostic (ρ : Role) (H : Header) (o₁ o₂ : Outcomes)
    (self₁ self₂ : DtlsHandshake) (k₁ k₂ : krx) (rtpSocket₁ rtpSocket₂ : Nat)
    (fingerprint : Option (List Byte))
    (hk₁ : self₁._k = some k₁) (hk₂ : self₂._k = some k₂) (ha : RoleAddressFits ρ)
    (hs₁ : StepsSucceed ρ o₁) (hs₂ : StepsSucceed ρ o₂)
    (hd : DigestFails o₁) (hn : o₂.SSL_get_peer_certificate = none) :
    ∃ r₁ r₂, DoHandshake ρ H o₁ self₁ rtpSocket₁ fingerprint = Except.ok r₁ ∧
      DoHandshake ρ H o₂ self₂ rtpSocket₂ fingerprint = Except.ok r₂ ∧
      r₁.ret = 0 ∧ r₂.ret = 0 ∧
      r₁.fingerprint = fingerprint ∧ r₂.fingerprint = fingerprint ∧
      digestFailureLine ∈ r₁.trace ∧ digestFailureLine ∉ r₂.trace := by
  obtain ⟨r₁, e₁, z₁, f₁, m₁⟩ :=
    handshake_success ρ H o₁ self₁ k₁ rtpSocket₁ fingerprint hk₁ ha hs₁
  obtain ⟨r₂, e₂, z₂, f₂, m₂⟩ :=
    handshake_success ρ H o₂ self₂ k₂ rtpSocket₂ fingerprint hk₂ ha hs₂
  refine ⟨r₁, r₂, e₁, e₂, z₁, z₂, ?_, ?_, m₁.mpr hd, ?_⟩
  · obtain ⟨c, hc, hr⟩ := hd
    rw [f₁, fingerprintAfter, hc]
    dsimp only
    rw [if_neg hr]
  · rw [f₂, fingerprintAfter, hn]
  · intro hm
    obtain ⟨c, hc, _⟩ := m₂.mp hm
    rw [hn] at hc
    cases hc

/-- C4 amended, at two client runs on a fresh object. -/
theorem digest_failure_differs_only_in_diagnostic_witness :
    (freshObject._k = some ⟨none, none, none⟩ ∧ RoleAddressFits sampleClient ∧
      StepsSucceed sampleClient digestFails ∧ StepsSucceed sampleClient noCertificate ∧
      DigestFails digestFails ∧ noCertificate.SSL_get_peer_certificate = none) ∧
    ∃ r₁ r₂,
      DoHandshake sampleClient sampleHeader digestFails freshObject 7 (some [1]) = Except.ok r₁ ∧
      DoHandshake sampleClient sampleHeader noCertificate freshObject 8 (some [1]) = Except.ok r₂ ∧
      r₁.ret = 0 ∧ r₂.ret = 0 ∧
      r₁.fingerprint = some [1] ∧ r₂.fingerprint = some [1] ∧
      digestFailureLine ∈ r₁.trace ∧ digestFailureLine ∉ r₂.trace :=
  ⟨⟨rfl, by decide, by decide, by decide, ⟨4, rfl, by decide⟩, rfl⟩,
    digest_failure_differs_only_in_diagnostic sampleClient sampleHeader digestFails noCertificate
      freshObject freshObject ⟨none, none, none⟩ ⟨none, none, none⟩ 7 8 (some [1]) rfl rfl
      (by decide) (by decide) (by decide) ⟨4, rfl, by decide⟩ rfl⟩

/-! ## C5: teardown -/

/-- C5. From every state of the object (no native record, a record holding
none, some or all of the library objects), `Shutdown` completes without a
fault; it frees only objects the record holds, the context at most once and
the `SSL` object at most once, also counted over both calls; and a second
`Shutdown` on the resulting object makes no releasing call and leaves the
object as it is. -/
theorem Shutdown_idempotent (self : DtlsHandshake) :
    ∃ s t t', Shutdown self = Except.ok (s, t) ∧ Shutdown s = Except.ok (s, t') ∧
      (t ++ t').countP freesContext ≤ 1 ∧ (t ++ t').countP freesSsl ≤ 1 ∧
      (∀ c, Call.SSL_CTX_free c ∈ t → ∃ k, self._k = some k ∧ k.ctx = some c) ∧
      (∀ x, Call.SSL_shutdown x ∈ t ∨ Call.SSL_free x ∈ t →
        ∃ k, self._k = some k ∧ k.ssl = some x) ∧
      (∀ c ∈ t', releases c = false) := by
  obtain ⟨_ | ⟨_ | ctx, _ | ssl, bio⟩, cf, kf, dbg⟩ := self
  all_goals
    refine ⟨_, _, _, rfl, rfl, ?_, ?_, ?_, ?_, ?_⟩ <;>
      simp [List.countP_cons, freesContext, freesSsl, releases]

/-! ## C6: the completion test -/

/-- C6, the code at the failing inputs.  `IsHandshakeComplete` has no value on
a freshly constructed object, on an object whose handshake failed before the
`SSL` object was created, and on an object after `Shutdown`: each run ends in
a null dereference instead of returning `false`.  Where the record holds an
`SSL` object the method returns whether its state is `TLS_ST_OK`. -/
theorem IsHandshakeComplete_faults_without_ssl (st : SSL → Nat) (init : Bool)
    (certFile keyFile : String) (debug : Bool) (H : Header) (o : Outcomes) (rtpSocket : Nat) :
    IsHandshakeComplete st (DtlsHandshake.new init certFile keyFile debug).1 =
      Except.error Fault.nullDereference ∧
    (∃ r, DoHandshakeAsServer H { o with SSL_CTX_new := none }
        (DtlsHandshake.new init certFile keyFile debug).1 rtpSocket none = Except.ok r ∧
      r.ret = H.HANDSHAKE_ERROR_STATUS ∧
      IsHandshakeComplete st r.self = Except.error Fault.nullDereference) ∧
    (∃ s t, Shutdown (DtlsHandshake.new init certFile keyFile debug).1 = Except.ok (s, t) ∧
      IsHandshakeComplete st s = Except.error Fault.nullDereference) ∧
    (∀ (ctx : Option SSL_CTX) (ssl : SSL) (bio : Option DgramBio),
      IsHandshakeComplete st ⟨some ⟨ctx, some ssl, bio⟩, certFile, keyFile, debug⟩ =
        Except.ok (decide (st ssl = TLS_ST_OK))) :=
  ⟨rfl, ⟨_, rfl, rfl, rfl⟩, ⟨_, _, rfl, rfl⟩, fun _ _ _ => rfl⟩

/-! ## C7: a cipher list or SRTP profile that cannot be applied -/

/-- C7 as stated fails in its last part.  After a server run whose cipher list
is refused and after a client run whose SRTP profile is refused, the object
still holds the context `1` that the run created. -/
theorem context_still_held_after_setup_failure :
    ∃ r1 r2,
      DoHandshakeAsServer sampleHeader { allSucceed with SSL_CTX_set_cipher_list := 0 }
        freshObject 7 none = Except.ok r1 ∧
      DoHandshakeAsClient sampleHeader { allSucceed with SSL_CTX_set_tlsext_use_srtp := 1 }
        sampleMemory freshObject 7 AF_INET [127, 0, 0, 1] 5000 none = Except.ok r2 ∧
      r1.self._k = some ⟨some 1, none, none⟩ ∧ r2.self._k = some ⟨some 1, none, none⟩ :=
  ⟨_, _, rfl, rfl, rfl, rfl⟩

/-- C7, amended.  When the context was created and the cipher list or the SRTP
profile cannot be applied, the handshake of either role returns
`HANDSHAKE_ERROR_STATUS` with the fingerprint handle untouched; among the
calls made there is no `SSL_new`, no `BIO_new_dgram`, no `SSL_accept` and no
`SSL_connect`; the `SSL` and `BIO` fields of the record are as before, and the
record holds the context just created.  A `Shutdown` run on the object as the
call left it completes, frees exactly that context with its single
`SSL_CTX_free` call and leaves the object without a record. -/
theorem setup_failure_stops_before_session (ρ : Role) (H : Header) (o : Outcomes)
    (self : DtlsHandshake) (k : krx) (rtpSocket : Nat) (fingerprint : Option (List Byte))
    (ctx : SSL_CTX) (hk : self._k = some k) (ha : RoleAddressFits ρ)
    (hctx : o.SSL_CTX_new = some ctx)
    (hbad : o.SSL_CTX_set_cipher_list ≠ 1 ∨ o.SSL_CTX_set_tlsext_use_srtp ≠ 0) :
    ∃ r, DoHandshake ρ H o self rtpSocket fingerprint = Except.ok r ∧
      r.ret = H.HANDSHAKE_ERROR_STATUS ∧ r.fingerprint = fingerprint ∧
      (∀ c ∈ r.trace, opensSession c = false) ∧
      r.self._k = some ⟨some ctx, k.ssl, k.bio⟩ ∧
      ∃ s t, Shutdown r.self = Except.ok (s, t) ∧ s._k = none ∧
        Call.SSL_CTX_free ctx ∈ t ∧ t.countP freesContext = 1 := by
  obtain ⟨_k, cf, kf, dbg⟩ := self
  simp only at hk
  subst hk
  cases ρ with
  | server =>
    unfold DoHandshake DoHandshakeAsServer
    dsimp only
    rw [hctx]
    dsimp only
    by_cases h2 : o.SSL_CTX_set_cipher_list ≠ 1
    · rw [if_pos h2]
      refine ⟨_, rfl, rfl, rfl, ?_, rfl, ?_⟩
      · simp [opensSession]
      · exact Shutdown_frees_held_context _ _ ctx rfl rfl
    · rw [if_neg h2]
      have h3 : o.SSL_CTX_set_tlsext_use_srtp ≠ 0 := hbad.resolve_left h2
      rw [if_pos h3]
      refine ⟨_, rfl, rfl, rfl, ?_, rfl, ?_⟩
      · simp [opensSession]
      · exact Shutdown_frees_held_context _ _ ctx rfl rfl
  | client src f b p =>
    obtain ⟨a, hp⟩ := prepareSvrAddr_ok src f b p ha
    unfold DoHandshake DoHandshakeAsClient
    dsimp only
    rw [hp]
    dsimp only
    rw [hctx]
    dsimp only
    by_cases h2 : o.SSL_CTX_set_cipher_list ≠ 1
    · rw [if_pos h2]
      refine ⟨_, rfl, rfl, rfl, ?_, rfl, ?_⟩
      · simp [opensSession]
      · exact Shutdown_frees_held_context _ _ ctx rfl rfl
    · rw [if_neg h2]
      have h3 : o.SSL_CTX_set_tlsext_use_srtp ≠ 0 := hbad.resolve_left h2
      rw [if_pos h3]
      refine ⟨_, rfl, rfl, rfl, ?_, rfl, ?_⟩
      · simp [opensSession]
      · exact Shutdown_frees_held_context _ _ ctx rfl rfl

/-- C7 amended, at a client run whose SRTP profile is refused. -/
theorem setup_failure_stops_before_session_witness :
    (freshObject._k = some ⟨none, none, none⟩ ∧ RoleAddressFits sampleClient ∧
      ({ allSucceed with SSL_CTX_set_tlsext_use_srtp := 1 } : Outcomes).SSL_CTX_new = some 1 ∧
      (({ allSucceed with SSL_CTX_set_tlsext_use_srtp := 1 } : Outcomes).SSL_CTX_set_cipher_list
          ≠ 1 ∨
        ({ allSucceed with SSL_CTX_set_tlsext_use_srtp := 1 } :
          Outcomes).SSL_CTX_set_tlsext_use_srtp ≠ 0)) ∧
    ∃ r, DoHandshake sampleClient sampleHeader
        { allSucceed with SSL_CTX_set_tlsext_use_srtp := 1 } freshObject 7 none = Except.ok r ∧
      r.ret = sampleHeader.HANDSHAKE_ERROR_STATUS ∧ r.fingerprint = none ∧
      (∀ c ∈ r.trace, opensSession c = false) ∧
      r.self._k = some ⟨some 1, none, none⟩ ∧
      ∃ s t, Shutdown r.self = Except.ok (s, t) ∧ s._k = none ∧
        Call.SSL_CTX_free 1 ∈ t ∧ t.countP freesContext = 1 :=
  ⟨⟨rfl, by decide, rfl, Or.inr (by decide)⟩,
    setup_failure_stops_before_session sampleClient sampleHeader
      { allSucceed with SSL_CTX_set_tlsext_use_srtp := 1 } freshObject ⟨none, none, none⟩ 7 none 1
      rfl (by decide) rfl (Or.inr (by decide))⟩

/-! ## C8: failures in the client path -/

/-- C8 as stated fails.  A client run in which binding the peer address fails
(`BIO_ctrl` returns `0`) and every other step succeeds prints the error line
and returns `0`; so does a client run in which only the digest of the peer
certificate fails. -/
theorem client_returns_success_after_failed_step :
    ∃ r1 r2,
      DoHandshakeAsClient sampleHeader { allSucceed with BIO_ctrl := 0 } sampleMemory
        freshObject 7 AF_INET [127, 0, 0, 1] 5000 none = Except.ok r1 ∧
      DoHandshakeAsClient sampleHeader digestFails sampleMemory
        freshObject 7 AF_INET [127, 0, 0, 1] 5000 none = Except.ok r2 ∧
      r1.ret = 0 ∧ r2.ret = 0 ∧ r2.fingerprint = none ∧
      Call.printf "Error: BIO_CTL to set BIO_CTRL_DGRAM_SET_CONNECTED failed.\n" ∈ r1.trace ∧
      digestFailureLine ∈ r2.trace :=
  ⟨_, _, rfl, rfl, rfl, rfl, rfl, by decide, by decide⟩

/-- C8, amended.  On a live object and with address bytes that fit, every run
of `DoHandshakeAsClient` in which context creation, cipher list, SRTP profile,
certificate load, key load, key check, `SSL` creation, `BIO` creation or
`SSL_connect` fails returns `HANDSHAKE_ERROR_STATUS` and leaves the
fingerprint handle as it was, whatever the other calls return.  A run in which
these nine steps succeed and only the digest of the peer certificate fails
prints the digest-failure line and returns `0` with the fingerprint handle as
it was. -/
theorem DoHandshakeAsClient_fatal_step_failure (H : Header) (o : Outcomes) (src : Nat → Byte)
    (self : DtlsHandshake) (k : krx) (rtpSocket : Nat) (svrAddrFamily : Int)
    (addrBytes : List Byte) (svrPort : Nat) (fingerprint : Option (List Byte))
    (hk : self._k = some k) (ha : AddressFits svrAddrFamily addrBytes) :
    (¬ ClientStepsSucceed o →
      ∃ r, DoHandshakeAsClient H o src self rtpSocket svrAddrFamily addrBytes svrPort
          fingerprint = Except.ok r ∧
        r.ret = H.HANDSHAKE_ERROR_STATUS ∧ r.fingerprint = fingerprint) ∧
    (ClientStepsSucceed o → DigestFails o →
      ∃ r, DoHandshakeAsClient H o src self rtpSocket svrAddrFamily addrBytes svrPort
          fingerprint = Except.ok r ∧
        r.ret = 0 ∧ r.fingerprint = fingerprint ∧ digestFailureLine ∈ r.trace) := by
  constructor
  · intro hf
    exact client_failure H o self k src rtpSocket svrAddrFamily addrBytes svrPort fingerprint
      hk ha hf
  · intro hs hd
    obtain ⟨r, e, z, f, m⟩ :=
      client_success H o self k src rtpSocket svrAddrFamily addrBytes svrPort fingerprint
        hk ha hs
    refine ⟨r, e, z, ?_, m.mpr hd⟩
    obtain ⟨c, hc, hr⟩ := hd
    rw [f, fingerprintAfter, hc]
    dsimp only
    rw [if_neg hr]

/-- C8 amended, at a client run whose `BIO` cannot be created and at a client
run whose digest call fails. -/
theorem DoHandshakeAsClient_fatal_step_failure_witness :
    (freshObject._k = some ⟨none, none, none⟩ ∧ AddressFits AF_INET6 (List.replicate 16 1) ∧
      ¬ ClientStepsSucceed { allSucceed with BIO_new_dgram := none } ∧
      ClientStepsSucceed digestFails ∧ DigestFails digestFails) ∧
    (∃ r, DoHandshakeAsClient sampleHeader { allSucceed with BIO_new_dgram := none } sampleMemory
        freshObject 7 AF_INET6 (List.replicate 16 1) 5000 (some [2]) = Except.ok r ∧
      r.ret = sampleHeader.HANDSHAKE_ERROR_STATUS ∧ r.fingerprint = some [2]) ∧
    (∃ r, DoHandshakeAsClient sampleHeader digestFails sampleMemory
        freshObject 7 AF_INET6 (List.replicate 16 1) 5000 (some [2]) = Except.ok r ∧
      r.ret = 0 ∧ r.fingerprint = some [2] ∧ digestFailureLine ∈ r.trace) :=
  ⟨⟨rfl, by decide, by decide, by decide, ⟨4, rfl, by decide⟩⟩,
    (DoHandshakeAsClient_fatal_step_failure sampleHeader { allSucceed with BIO_new_dgram := none }
      sampleMemory freshObject ⟨none, none, none⟩ 7 AF_INET6 (List.replicate 16 1) 5000 (some [2])
      rfl (by decide)).1 (by decide),
    (DoHandshakeAsClient_fatal_step_failure sampleHeader digestFails
      sampleMemory freshObject ⟨none, none, none⟩ 7 AF_INET6 (List.replicate 16 1) 5000 (some [2])
      rfl (by decide)).2 (by decide) ⟨4, rfl, by decide⟩⟩

/-! ## C9: the client path against the server path -/

/-- C9 as stated fails for address bytes that do not fit the address field:
with the family `AF_INET` and sixteen address bytes the client run ends in the
address copy, while the server run on the same outcomes returns `0`. -/
theorem client_faults_on_oversized_address :
    DoHandshakeAsClient sampleHeader allSucceed sampleMemory freshObject 7 AF_INET
        (List.replicate 16 0) 5000 none = Except.error Fault.invalidParameter ∧
    ∃ r, DoHandshakeAsServer sampleHeader allSucceed freshObject 7 none = Except.ok r ∧
      r.ret = 0 ∧ r.fingerprint = some (sampleSha256 4) :=
  ⟨rfl, _, rfl, rfl, by decide⟩

/-- C9, amended.  On a live object, for every assignment of outcomes to the
shared steps (the negotiation succeeding for both roles or for neither), every
port, and every address family and address bytes that fit the address field
the family selects, `DoHandshakeAsClient` returns the same status and
fingerprint handle as `DoHandshakeAsServer` and leaves the object in the same
state.  Its library calls are those of the server path in the same order, up
to the method passed to `SSL_CTX_new`, `SSL_set_connect_state` in place of
`SSL_set_accept_state`, `SSL_connect` in place of `SSL_accept`, the extra
`BIO_ctrl` call and the text printed; and when the client reaches the
negotiation it sets the connect state, then binds the prepared address, then
calls `SSL_connect`. -/
theorem client_mirrors_server (H : Header) (o : Outcomes) (src : Nat → Byte)
    (self : DtlsHandshake) (k : krx) (rtpSocket : Nat) (svrAddrFamily : Int)
    (addrBytes : List Byte) (svrPort : Nat) (fingerprint : Option (List Byte))
    (hk : self._k = some k) (ha : AddressFits svrAddrFamily addrBytes)
    (hn : 0 < o.SSL_connect ↔ 0 < o.SSL_accept) :
    ∃ a, prepareSvrAddr src svrAddrFamily addrBytes svrPort = Except.ok a ∧
    ∃ rs rc, DoHandshakeAsServer H o self rtpSocket fingerprint = Except.ok rs ∧
      DoHandshakeAsClient H o src self rtpSocket svrAddrFamily addrBytes svrPort fingerprint =
        Except.ok rc ∧
      rc.ret = rs.ret ∧ rc.fingerprint = rs.fingerprint ∧ rc.self = rs.self ∧
      rc.trace.filterMap roleNeutral = rs.trace.filterMap roleNeutral ∧
      (rc.trace.filter clientNegotiationCall = [] ∨
        ∃ ssl bio, rc.trace.filter clientNegotiationCall =
          [Call.SSL_set_connect_state ssl,
            Call.BIO_ctrl bio BIO_CTRL_DGRAM_SET_CONNECTED 0 a, Call.SSL_connect ssl]) := by
  obtain ⟨a, hp⟩ := prepareSvrAddr_ok src svrAddrFamily addrBytes svrPort ha
  refine ⟨a, hp, ?_⟩
  obtain ⟨_k, cf, kf, dbg⟩ := self
  simp only at hk
  subst hk
  unfold DoHandshakeAsServer DoHandshakeAsClient
  rw [hp]
  dsimp only
  cases h1 : o.SSL_CTX_new with
  | none => (refine ⟨_, _, rfl, rfl, rfl, rfl, rfl, ?_, ?_⟩ <;> simp [roleNeutral, clientNegotiationCall])
  | some ctx =>
  dsimp only
  by_cases h2 : o.SSL_CTX_set_cipher_list ≠ 1
  · rw [if_pos h2, if_pos h2]; (refine ⟨_, _, rfl, rfl, rfl, rfl, rfl, ?_, ?_⟩ <;> simp [roleNeutral, clientNegotiationCall])
  rw [if_neg h2, if_neg h2]
  by_cases h3 : o.SSL_CTX_set_tlsext_use_srtp ≠ 0
  · rw [if_pos h3, if_pos h3]; (refine ⟨_, _, rfl, rfl, rfl, rfl, rfl, ?_, ?_⟩ <;> simp [roleNeutral, clientNegotiationCall])
  rw [if_neg h3, if_neg h3]
  by_cases h4 : o.SSL_CTX_use_certificate_file ≠ 1
  · rw [if_pos h4, if_pos h4]; (refine ⟨_, _, rfl, rfl, rfl, rfl, rfl, ?_, ?_⟩ <;> simp [roleNeutral, clientNegotiationCall])
  rw [if_neg h4, if_neg h4]
  by_cases h5 : o.SSL_CTX_use_PrivateKey_file ≠ 1
  · rw [if_pos h5, if_pos h5]; (refine ⟨_, _, rfl, rfl, rfl, rfl, rfl, ?_, ?_⟩ <;> simp [roleNeutral, clientNegotiationCall])
  rw [if_neg h5, if_neg h5]
  by_cases h6 : o.SSL_CTX_check_private_key ≠ 1
  · rw [if_pos h6, if_pos h6]; (refine ⟨_, _, rfl, rfl, rfl, rfl, rfl, ?_, ?_⟩ <;> simp [roleNeutral, clientNegotiationCall])
  rw [if_neg h6, if_neg h6]
  cases h7 : o.SSL_new with
  | none => (refine ⟨_, _, rfl, rfl, rfl, rfl, rfl, ?_, ?_⟩ <;> simp [roleNeutral, clientNegotiationCall])
  | some ssl =>
  dsimp only
  cases h8 : o.BIO_new_dgram with
  | none => (refine ⟨_, _, rfl, rfl, rfl, rfl, rfl, ?_, ?_⟩ <;> simp [roleNeutral, clientNegotiationCall])
  | some bio =>
  dsimp only
  by_cases h9 : o.SSL_accept ≤ 0
  · have h9c : o.SSL_connect ≤ 0 := by omega
    rw [if_pos h9, if_pos h9c]
    (refine ⟨_, _, rfl, rfl, rfl, rfl, rfl, ?_, ?_⟩ <;>
      cases dbg <;> by_cases hb : o.BIO_ctrl ≤ 0 <;> simp [roleNeutral, clientNegotiationCall, hb])
  have h9c : ¬ o.SSL_connect ≤ 0 := by omega
  rw [if_neg h9, if_neg h9c]
  cases hc : o.SSL_get_peer_certificate with
  | none =>
    (refine ⟨_, _, rfl, rfl, rfl, rfl, rfl, ?_, ?_⟩ <;>
      cases dbg <;> by_cases hb : o.BIO_ctrl ≤ 0 <;> simp [roleNeutral, clientNegotiationCall, hb])
  | some c =>
    dsimp only
    by_cases hd : (o.X509_digest c (o.EVP_get_digestbyname "sha256")).ret = 1
    · rw [if_pos hd, if_pos hd]
      (refine ⟨_, _, rfl, rfl, rfl, rfl, rfl, ?_, ?_⟩ <;>
      cases dbg <;> by_cases hb : o.BIO_ctrl ≤ 0 <;> simp [roleNeutral, clientNegotiationCall, hb])
    · rw [if_neg hd, if_neg hd]
      (refine ⟨_, _, rfl, rfl, rfl, rfl, rfl, ?_, ?_⟩ <;>
      cases dbg <;> by_cases hb : o.BIO_ctrl ≤ 0 <;> simp [roleNeutral, clientNegotiationCall, hb])

/-- C9 amended, at an IPv6 client and a run whose key check fails. -/
theorem client_mirrors_server_witness :
    (freshObject._k = some ⟨none, none, none⟩ ∧ AddressFits AF_INET6 (List.replicate 16 1) ∧
      (0 < ({ allSucceed with SSL_CTX_check_private_key := 0 } : Outcomes).SSL_connect ↔
        0 < ({ allSucceed with SSL_CTX_check_private_key := 0 } : Outcomes).SSL_accept)) ∧
    ∃ a, prepareSvrAddr sampleMemory AF_INET6 (List.replicate 16 1) 5000 = Except.ok a ∧
    ∃ rs rc,
      DoHandshakeAsServer sampleHeader { allSucceed with SSL_CTX_check_private_key := 0 }
        freshObject 7 none = Except.ok rs ∧
      DoHandshakeAsClient sampleHeader { allSucceed with SSL_CTX_check_private_key := 0 }
        sampleMemory freshObject 7 AF_INET6 (List.replicate 16 1) 5000 none = Except.ok rc ∧
      rc.ret = rs.ret ∧ rc.fingerprint = rs.fingerprint ∧ rc.self = rs.self ∧
      rc.trace.filterMap roleNeutral = rs.trace.filterMap roleNeutral ∧
      (rc.trace.filter clientNegotiationCall = [] ∨
        ∃ ssl bio, rc.trace.filter clientNegotiationCall =
          [Call.SSL_set_connect_state ssl,
            Call.BIO_ctrl bio BIO_CTRL_DGRAM_SET_CONNECTED 0 a, Call.SSL_connect ssl]) :=
  ⟨⟨rfl, by decide, by decide⟩,
    client_mirrors_server sampleHeader { allSucceed with SSL_CTX_check_private_key := 0 }
      sampleMemory freshObject ⟨none, none, none⟩ 7 AF_INET6 (List.replicate 16 1) 5000 none
      rfl (by decide) (by decide)⟩

/-! ## C10: the cookie callbacks -/

/-- C10. `generate_cookie` returns `1` for every connection and every buffer,
stores `sizeof(DTLS_COOKIE)` as the length and leaves exactly the bytes of
`DTLS_COOKIE` at the start of the buffer; `verify_cookie` returns `1` for
every connection, every byte string and every length, in particular for what
`generate_cookie` wrote. -/
theorem cookie_is_fixed_and_always_accepted (H : Header) (ssl ssl2 : Option SSL)
    (buffer buffer2 cookie : List Byte) (cookie_len : Nat) :
    (generate_cookie H ssl buffer).1 = 1 ∧
    (generate_cookie H ssl buffer).2.2 = H.DTLS_COOKIE.length ∧
    (generate_cookie H ssl buffer).2.1.take (generate_cookie H ssl buffer).2.2 = H.DTLS_COOKIE ∧
    (generate_cookie H ssl2 buffer2).2.2 = (generate_cookie H ssl buffer).2.2 ∧
    (generate_cookie H ssl2 buffer2).2.1.take (generate_cookie H ssl2 buffer2).2.2 =
      (generate_cookie H ssl buffer).2.1.take (generate_cookie H ssl buffer).2.2 ∧
    verify_cookie ssl cookie cookie_len = 1 ∧
    verify_cookie ssl2 ((generate_cookie H ssl buffer).2.1.take (generate_cookie H ssl buffer).2.2)
      (generate_cookie H ssl buffer).2.2 = 1 := by
  simp [generate_cookie, verify_cookie]

end SIPSorceryMedia
